import Mathlib

/-!
Shallow embedding of the rgb Game Boy emulator core (Rust sources:
src/timer.rs, src/ppu.rs, src/interrupts.rs, src/cartridge.rs, src/bus.rs,
src/cpu.rs).  Machine integers are modelled as `Nat` with explicit
`% 2^8` / `% 2^16` wherever the Rust code wraps; fallible paths (Rust
panics: unhandled match arms, checked-arithmetic overflow, out-of-range
indexing on unreachable paths) are modelled with `Option`.
Byte-addressed memories are modelled as total functions `Nat → Nat`.
-/

namespace Rgb

/-- Pointwise update of a memory function (array store `m[i] = v`). -/
def upd (f : Nat → Nat) (i v : Nat) : Nat → Nat :=
  fun j => if j = i then v else f j

theorem upd_same (f : Nat → Nat) (i v : Nat) : upd f i v i = v := by
  simp [upd]

theorem upd_other (f : Nat → Nat) (i v j : Nat) (h : j ≠ i) : upd f i v j = f j := by
  simp [upd, h]

/-- Rust `as i8 as u16` sign extension of a byte into a 16-bit value. -/
def sext8to16 (b : Nat) : Nat :=
  if b < 0x80 then b else 0xFF00 + b

/-- src/interrupts.rs: the five interrupt sources. -/
inductive Interrupt where
  | VBlank
  | Stat
  | Timer
  | Serial
  | Joypad
deriving DecidableEq, Repr

/-- src/ppu.rs: `struct Ppu` — VRAM, OAM and the scroll-Y register. -/
structure Ppu where
  vram : Nat → Nat
  oam : Nat → Nat
  scy : Nat

/-- src/ppu.rs: `Ppu::default` — zeroed memories. -/
def Ppu.default : Ppu :=
  { vram := fun _ => 0, oam := fun _ => 0, scy := 0 }

/-- src/ppu.rs: `Ppu::tick` — the display stub; returns no interrupt and
leaves the state unchanged. -/
def Ppu.tick (p : Ppu) : Ppu × Option Interrupt :=
  (p, none)

/-- src/timer.rs: `struct Timer`. `sysclock` is a u16, `tima`/`tma`/
`clock_select` are u8, `edge` is the cached bit used for falling-edge
detection, `tima_enable` is TAC bit 2. -/
structure Timer where
  sysclock : Nat
  tima : Nat
  tma : Nat
  edge : Bool
  tima_enable : Bool
  clock_select : Nat

/-- src/timer.rs: `Timer::default` (derived) — all fields zero/false. -/
def Timer.default : Timer :=
  { sysclock := 0, tima := 0, tma := 0, edge := false,
    tima_enable := false, clock_select := 0 }

/-- src/timer.rs lines 20–26: the shift amount selected by `clock_select`
({0→9, 1→3, 2→5, 3→7}; the Rust `_ => unreachable!()` arm is modelled
as 0 — `clock_select` is always `value & 3` from `write_byte`). -/
def Timer.selShift (sel : Nat) : Nat :=
  if sel = 0 then 9
  else if sel = 1 then 3
  else if sel = 2 then 5
  else if sel = 3 then 7
  else 0

/-- The selected bit of a sysclock value: `(sysclock >> shift) & 1 != 0`. -/
def Timer.selBit (sel sysclock : Nat) : Bool :=
  (sysclock >>> Timer.selShift sel) &&& 1 ≠ 0

/-- src/timer.rs: `Timer::tick`.  Adds 4 to `sysclock` (wrapping u16 add);
only when `tima_enable` is set it recomputes the cached `edge` bit from
the new sysclock and, on a 1→0 transition of that cached bit, increments
TIMA with `overflowing_add`; on overflow TIMA is reloaded from TMA and a
Timer interrupt is returned. -/
def Timer.tick (t : Timer) : Timer × Option Interrupt :=
  let sysclock := (t.sysclock + 4) % 65536
  if t.tima_enable then
    let old_edge := t.edge
    let edge := Timer.selBit t.clock_select sysclock
    if !edge && old_edge then
      let incVal := (t.tima + 1) % 256
      let incOverflow := decide (t.tima + 1 ≥ 256)
      if incOverflow then
        ({ t with sysclock := sysclock, edge := edge, tima := t.tma },
         some Interrupt.Timer)
      else
        ({ t with sysclock := sysclock, edge := edge, tima := incVal }, none)
    else
      ({ t with sysclock := sysclock, edge := edge }, none)
  else
    ({ t with sysclock := sysclock }, none)

/-- src/timer.rs: `Timer::read_byte` — DIV/TIMA/TMA/TAC register reads
(the Rust `_ => unreachable!()` arm is modelled as 0; the bus only calls
this for 0xFF04–0xFF07). -/
def Timer.read_byte (t : Timer) (address : Nat) : Nat :=
  if address = 0xFF04 then (t.sysclock >>> 8) % 256
  else if address = 0xFF05 then t.tima
  else if address = 0xFF06 then t.tma
  else if address = 0xFF07 then
    0xF8 ||| ((if t.tima_enable then 1 else 0) <<< 2) ||| t.clock_select
  else 0

/-- src/timer.rs: `Timer::write_byte` — DIV write resets sysclock, TAC
write sets the enable bit and clock select (the `_ => unreachable!()`
arm is modelled as a no-op). -/
def Timer.write_byte (t : Timer) (address value : Nat) : Timer :=
  if address = 0xFF04 then { t with sysclock := 0 }
  else if address = 0xFF05 then { t with tima := value }
  else if address = 0xFF06 then { t with tma := value }
  else if address = 0xFF07 then
    { t with tima_enable := value &&& 4 ≠ 0, clock_select := value &&& 3 }
  else t

/-- src/cartridge.rs: the cartridge variants the bus can own.  `rom` and
`ram` are byte functions (Vec indexing); `Mbc1` carries the ROM-bank
register and the RAM-enable latch. -/
inductive Cartridge where
  | noMbc (rom : Nat → Nat) (ram : Option (Nat → Nat))
  | mbc1 (rom : Nat → Nat) (ram : Option (Nat → Nat))
      (active_bank : Nat) (ram_enabled : Bool)
  | jsmoo (ram : Nat → Nat)

/-- src/cartridge.rs: `read_byte` for each cartridge variant.
For Mbc1 the 0x4000–0x7FFF arm computes the index as
`address * u16::from(active_bank)` — a 16-bit multiply (wrapping in
release builds, modelled with `% 65536`; it is a checked-arithmetic
overflow for bank ≥ 2 at address ≥ 0x8000) — after remapping a bank of
0x00/0x20/0x40/0x60 to bank+1. -/
def Cartridge.read_byte : Cartridge → Nat → Nat
  | .noMbc rom _, address => rom address
  | .jsmoo ram, address => ram address
  | .mbc1 rom ram active_bank ram_enabled, address =>
    if address ≤ 0x3FFF then rom address
    else if address ≤ 0x7FFF then
      let bank :=
        if active_bank = 0x00 ∨ active_bank = 0x20 ∨
           active_bank = 0x40 ∨ active_bank = 0x60
        then active_bank + 1 else active_bank
      rom ((address * bank) % 65536)
    else if 0xA000 ≤ address ∧ address ≤ 0xBFFF then
      if !ram_enabled ∨ ram.isNone then 0xFF
      else (ram.getD (fun _ => 0)) (address - 0xA000)
    else 0xFF

/-- src/cartridge.rs: `write_byte` for each cartridge variant.  NoMbc
ignores all writes.  Mbc1 handles only 0x0000–0x1FFF (RAM enable) and
0x2000–0x3FFF (ROM bank: if `value & 0x1F` is 0x00/0x20/0x40/0x60 the
stored bank is `value + 1`, else `value`); every other address —
including the cartridge-RAM window 0xA000–0xBFFF — falls into the
`_ => ()` arm and is ignored. -/
def Cartridge.write_byte : Cartridge → Nat → Nat → Cartridge
  | .noMbc rom ram, _, _ => .noMbc rom ram
  | .jsmoo ram, address, value => .jsmoo (upd ram address value)
  | .mbc1 rom ram active_bank ram_enabled, address, value =>
    if address ≤ 0x1FFF then
      .mbc1 rom ram active_bank (value &&& 0x0A > 0)
    else if address ≤ 0x3FFF then
      let masked := value &&& 0x1F
      if masked = 0x00 ∨ masked = 0x20 ∨ masked = 0x40 ∨ masked = 0x60 then
        .mbc1 rom ram (value + 1) ram_enabled
      else
        .mbc1 rom ram value ram_enabled
    else
      .mbc1 rom ram active_bank ram_enabled

/-- src/bus.rs: `struct DmgBus`. -/
structure DmgBus where
  bootrom : Nat → Nat
  ppu : Ppu
  wram : Nat → Nat
  hram : Nat → Nat
  bootrom_enabled : Bool
  interrupt_enable : Nat
  interrupt_flags : Nat
  serial : Nat
  serial_control : Nat
  timer : Timer
  cartridge : Option Cartridge

/-- src/bus.rs: `DmgBus::default` — zeroed memories and registers, default
timer, no cartridge, boot ROM disabled. -/
def DmgBus.default : DmgBus :=
  { bootrom := fun _ => 0
    ppu := Ppu.default
    wram := fun _ => 0
    hram := fun _ => 0
    bootrom_enabled := false
    interrupt_enable := 0
    interrupt_flags := 0
    serial := 0
    serial_control := 0
    timer := Timer.default
    cartridge := none }

/-- src/bus.rs lines 63–74: `DmgBus::tick` — ticks the display, ORing a
VBlank/Stat interrupt into IF (bits 0/1), then ticks the timer, ORing a
Timer interrupt into IF (bit 2). -/
def DmgBus.tick (b : DmgBus) : DmgBus :=
  let pr := b.ppu.tick
  let flagsAfterPpu :=
    match pr.2 with
    | some Interrupt.VBlank => b.interrupt_flags ||| 1
    | some Interrupt.Stat => b.interrupt_flags ||| 2
    | _ => b.interrupt_flags
  let tr := b.timer.tick
  let flagsAfterTimer :=
    match tr.2 with
    | some Interrupt.Timer => flagsAfterPpu ||| 4
    | _ => flagsAfterPpu
  { b with ppu := pr.1, timer := tr.1, interrupt_flags := flagsAfterTimer }

/-- src/bus.rs lines 81–110: `DmgBus::peek_byte` — the address decoder,
with no side effects.  Mirrors the source match arm for arm (the final
`else 0` is unreachable for u16 addresses: the source match ends at
`0xFFFF => interrupt_enable`). -/
def DmgBus.peek_byte (b : DmgBus) (address : Nat) : Nat :=
  if b.bootrom_enabled ∧ address < 0x100 then b.bootrom address
  else if address ≤ 0x7FFF ∨ (0xA000 ≤ address ∧ address ≤ 0xBFFF) then
    match b.cartridge with
    | some cartridge => cartridge.read_byte address
    | none => 0xFF
  else if address ≤ 0x9FFF then b.ppu.vram (address - 0x8000)
  else if address ≤ 0xDFFF then b.wram (address - 0xC000)
  else if address ≤ 0xFDFF then b.wram (address - 0xE000)
  else if address ≤ 0xFE9F then b.ppu.oam (address - 0xFE00)
  else if address ≤ 0xFEFF then 0x00
  else if address = 0xFF01 then b.serial
  else if address = 0xFF02 then b.serial_control
  else if 0xFF04 ≤ address ∧ address ≤ 0xFF07 then b.timer.read_byte address
  else if address = 0xFF42 then b.ppu.scy
  else if address = 0xFF44 then 0x90
  else if address = 0xFF0F then b.interrupt_flags
  else if address ≤ 0xFF7F then 0x00
  else if address ≤ 0xFFFE then b.hram (address - 0xFF80)
  else if address = 0xFFFF then b.interrupt_enable
  else 0

/-- src/bus.rs lines 113–117: `DmgBus::read_byte` — peek, then one tick. -/
def DmgBus.read_byte (b : DmgBus) (address : Nat) : Nat × DmgBus :=
  (b.peek_byte address, b.tick)

/-- src/bus.rs lines 120–123: `DmgBus::read_word` — two byte reads at
`address` and `address + 1`, little-endian.  The second address is the
plain (checked) add `address + 1`, which overflows u16 when
`address = 0xFFFF`; that panic is modelled as `none`. -/
def DmgBus.read_word (b : DmgBus) (address : Nat) : Option (Nat × DmgBus) :=
  if address + 1 ≤ 0xFFFF then
    let lo := b.read_byte address
    let hi := lo.2.read_byte (address + 1)
    some ((hi.1 <<< 8) ||| lo.1, hi.2)
  else none

/-- src/bus.rs lines 126–150: the `match address { ... }` store part of
`DmgBus::write_byte` (mirrors the source match arm for arm; unmatched
addresses fall through to `_ => ()`). -/
def DmgBus.write_store (b : DmgBus) (address value : Nat) : DmgBus :=
  if address ≤ 0x7FFF ∨ (0xA000 ≤ address ∧ address ≤ 0xBFFF) then
      match b.cartridge with
      | some cartridge =>
          { b with cartridge := some (cartridge.write_byte address value) }
      | none => b
    else if address ≤ 0x9FFF then
      { b with ppu := { b.ppu with vram := upd b.ppu.vram (address - 0x8000) value } }
    else if address ≤ 0xDFFF then
      { b with wram := upd b.wram (address - 0xC000) value }
    else if address ≤ 0xFDFF then
      { b with wram := upd b.wram (address - 0xE000) value }
    else if 0xFE00 ≤ address ∧ address ≤ 0xFE9F then
      { b with ppu := { b.ppu with oam := upd b.ppu.oam (address - 0xFE00) value } }
    else if address = 0xFF01 then { b with serial := value }
    else if address = 0xFF02 then { b with serial_control := value }
    else if 0xFF04 ≤ address ∧ address ≤ 0xFF07 then
      { b with timer := b.timer.write_byte address value }
    else if address = 0xFF0F then { b with interrupt_flags := 0xE0 ||| value }
    else if address = 0xFF42 then { b with ppu := { b.ppu with scy := value } }
    else if address = 0xFF50 then
      if value > 0 then { b with bootrom_enabled := false } else b
    else if 0xFF80 ≤ address ∧ address ≤ 0xFFFE then
      { b with hram := upd b.hram (address - 0xFF80) value }
    else if address = 0xFFFF then { b with interrupt_enable := 0xE0 ||| value }
    else b

/-- src/bus.rs lines 125–153: `DmgBus::write_byte` — the store part,
then one tick (`self.tick()`). -/
def DmgBus.write_byte (b : DmgBus) (address value : Nat) : DmgBus :=
  (b.write_store address value).tick

/-- src/bus.rs lines 155–158: `DmgBus::write_word` — low byte at
`address`, high byte at `address.wrapping_add(1)`. -/
def DmgBus.write_word (b : DmgBus) (address value : Nat) : DmgBus :=
  (b.write_byte address (value % 256)).write_byte
    ((address + 1) % 65536) ((value >>> 8) % 256)

/-- src/bus.rs lines 160–162: `DmgBus::set_post_boot_state` — sets the
timer's sysclock to 0xAB (the literal value, i.e. high byte 0x00). -/
def DmgBus.set_post_boot_state (b : DmgBus) : DmgBus :=
  { b with timer := { b.timer with sysclock := 0xAB } }

/-- src/cpu.rs: `struct Flags` — the four flag booleans. -/
structure Flags where
  z : Bool
  c : Bool
  n : Bool
  h : Bool
deriving DecidableEq, Repr

/-- src/cpu.rs: `struct Registers` — u8 registers plus u16 PC and SP. -/
structure Registers where
  a : Nat
  b : Nat
  c : Nat
  d : Nat
  e : Nat
  h : Nat
  l : Nat
  pc : Nat
  sp : Nat
deriving DecidableEq, Repr

/-- src/cpu.rs: `enum Register` — the 8-bit operand addressing modes. -/
inductive Register where
  | A | B | C | D | E | H | L
  | IndirectHL
  | DecrementHL
  | IncrementHL
  | IndirectC
deriving DecidableEq, Repr

/-- src/cpu.rs: `enum RegisterPair`. -/
inductive RegisterPair where
  | BC | DE | HL | SP | AF
deriving DecidableEq, Repr

/-- src/cpu.rs: `enum Condition`. -/
inductive Condition where
  | Always | Zero | NonZero | Carry | NonCarry
deriving DecidableEq, Repr

/-- src/cpu.rs: `enum Operand`.  The Rust `i8` payloads (`StackOffset`)
are carried as the raw fetched byte; sign extension (`as i8 as u16`)
is applied at the use site via `sext8to16`, as the source casts do. -/
inductive Operand where
  | Immediate8 (value : Nat)
  | IndirectImmediate8 (value : Nat)
  | Immediate16 (value : Nat)
  | IndirectImmediate16 (value : Nat)
  | StackOffset (value : Nat)
  | Register (r : Register)
  | RegisterPair (rp : RegisterPair)
  | RegisterIndirect (rp : RegisterPair)
deriving DecidableEq, Repr

/-- src/cpu.rs: `enum Instruction`.  The `i8` payload of `Jr` is carried
as the raw fetched byte (sign-extended at the use site). -/
inductive Instruction where
  | Ld (target source : Operand)
  | Xor (op : Operand)
  | And (op : Operand)
  | Add (target source : Operand)
  | Adc (op : Operand)
  | Sub (op : Operand)
  | Sbc (op : Operand)
  | Or (op : Operand)
  | Cp (op : Operand)
  | Inc (op : Operand)
  | Dec (op : Operand)
  | Rlc (r : Register)
  | Rrc (r : Register)
  | Rl (r : Register)
  | Rla
  | Rlca
  | Rr (r : Register)
  | Rra
  | Rrca
  | Sla (r : Register)
  | Sra (r : Register)
  | Swap (r : Register)
  | Srl (r : Register)
  | Bit (b : Nat) (r : Register)
  | Res (b : Nat) (r : Register)
  | Set (b : Nat) (r : Register)
  | Rst (address : Nat)
  | Ret (c : Condition)
  | Reti
  | Jp (c : Condition) (op : Operand)
  | Jr (c : Condition) (offset : Nat)
  | Call (c : Condition) (address : Nat)
  | Stop
  | Nop
  | Halt
  | Ei
  | Di
  | Push (rp : RegisterPair)
  | Pop (rp : RegisterPair)
  | Daa
  | Cpl
  | Scf
  | Ccf
deriving DecidableEq, Repr

/-- src/cpu.rs: `fn inherent_condition_operand` — low 2 bits select the
condition code (the `_ => panic!` arm is unreachable after `& 0o03`). -/
def inherent_condition_operand (opcode : Nat) : Condition :=
  match opcode &&& 0o03 with
  | 0 => .NonZero
  | 1 => .Zero
  | 2 => .NonCarry
  | _ => .Carry

/-- src/cpu.rs: `fn inherent_register_operand` — low 3 bits select the
register in the order B,C,D,E,H,L,(HL),A (the `_ => panic!` arm is
unreachable after `& 0o07`). -/
def inherent_register_operand (opcode : Nat) : Register :=
  match opcode &&& 0o07 with
  | 0 => .B
  | 1 => .C
  | 2 => .D
  | 3 => .E
  | 4 => .H
  | 5 => .L
  | 6 => .IndirectHL
  | _ => .A

/-- src/cpu.rs: `fn inherent_registerpair_operand` — selects BC/DE/HL/SP
(the `_ => panic!` arm is unreachable after `& 0o07`). -/
def inherent_registerpair_operand (opcode : Nat) : RegisterPair :=
  match opcode &&& 0o07 with
  | 0 | 1 => .BC
  | 2 | 3 => .DE
  | 4 | 5 => .HL
  | _ => .SP

/-- src/cpu.rs: `struct Cpu`.  The `bus` trait object is instantiated
with the `DmgBus` model. -/
structure Cpu where
  registers : Registers
  flags : Flags
  ime : Bool
  bus : DmgBus

/-- src/cpu.rs: `Cpu::default` — zeroed registers and flags, IME false,
default bus. -/
def Cpu.default : Cpu :=
  { registers := { a := 0, b := 0, c := 0, d := 0, e := 0, h := 0, l := 0,
                   pc := 0, sp := 0 }
    flags := { z := false, c := false, n := false, h := false }
    ime := false
    bus := DmgBus.default }

/-- src/cpu.rs: `impl Index<&Register> for Registers` — reads one of the
seven plain registers.  The source panics for the indirect pseudo
registers; that arm is modelled as 0 (decode/execute never index them). -/
def Registers.get (r : Registers) : Register → Nat
  | .A => r.a
  | .B => r.b
  | .C => r.c
  | .D => r.d
  | .E => r.e
  | .H => r.h
  | .L => r.l
  | _ => 0

/-- src/cpu.rs: `impl IndexMut<&Register> for Registers` — writes one of
the seven plain registers.  The source panics for the indirect pseudo
registers; that arm is modelled as the identity (never reached). -/
def Registers.set (r : Registers) (reg : Register) (v : Nat) : Registers :=
  match reg with
  | .A => { r with a := v }
  | .B => { r with b := v }
  | .C => { r with c := v }
  | .D => { r with d := v }
  | .E => { r with e := v }
  | .H => { r with h := v }
  | .L => { r with l := v }
  | _ => r

/-- src/cpu.rs: `Cpu::get_register_pair` — 16-bit views; AF packs the
flag booleans into bits 7–4 of the low byte. -/
def Cpu.get_register_pair (c : Cpu) : RegisterPair → Nat
  | .BC => (c.registers.b <<< 8) ||| c.registers.c
  | .DE => (c.registers.d <<< 8) ||| c.registers.e
  | .HL => (c.registers.h <<< 8) ||| c.registers.l
  | .AF =>
    (c.registers.a <<< 8) |||
      (if c.flags.z then 0x80 else 0) |||
      (if c.flags.n then 0x40 else 0) |||
      (if c.flags.h then 0x20 else 0) |||
      (if c.flags.c then 0x10 else 0)
  | .SP => c.registers.sp

/-- src/cpu.rs: `Cpu::set_register_pair` — splits a 16-bit value into a
pair; AF unpacks bits 7–4 into the flag booleans. -/
def Cpu.set_register_pair (c : Cpu) (rp : RegisterPair) (value : Nat) : Cpu :=
  match rp with
  | .AF =>
    { c with
      registers := { c.registers with a := (value >>> 8) % 256 }
      flags := { z := value &&& 0x80 = 0x80, n := value &&& 0x40 = 0x40,
                 h := value &&& 0x20 = 0x20, c := value &&& 0x10 = 0x10 } }
  | .BC =>
    { c with registers :=
      { c.registers with b := (value >>> 8) % 256, c := value % 256 } }
  | .DE =>
    { c with registers :=
      { c.registers with d := (value >>> 8) % 256, e := value % 256 } }
  | .HL =>
    { c with registers :=
      { c.registers with h := (value >>> 8) % 256, l := value % 256 } }
  | .SP => { c with registers := { c.registers with sp := value } }

/-- src/cpu.rs: `Cpu::fetch_imm8` — bus read at PC (one tick), then PC is
incremented with a wrapping add. -/
def Cpu.fetch_imm8 (c : Cpu) : Nat × Cpu :=
  let r := c.bus.read_byte c.registers.pc
  let regs := { c.registers with pc := (c.registers.pc + 1) % 65536 }
  (r.1, { c with bus := r.2, registers := regs })

/-- src/cpu.rs: `Cpu::fetch_imm16` — bus word read at PC (two ticks; the
underlying `read_word` panics at PC = 0xFFFF, modelled as `none`), then
PC is incremented by 2 with a wrapping add. -/
def Cpu.fetch_imm16 (c : Cpu) : Option (Nat × Cpu) :=
  (c.bus.read_word c.registers.pc).map fun r =>
    let regs := { c.registers with pc := (c.registers.pc + 2) % 65536 }
    (r.1, { c with bus := r.2, registers := regs })

/-- src/cpu.rs: `Cpu::fetch` — one immediate byte fetch. -/
def Cpu.fetch (c : Cpu) : Nat × Cpu :=
  c.fetch_imm8

/-- src/cpu.rs: `Cpu::push` — SP is decremented by 2 (wrapping), then the
word is written at the new SP. -/
def Cpu.push (c : Cpu) (value : Nat) : Cpu :=
  let sp := (c.registers.sp + 65534) % 65536
  { c with registers := { c.registers with sp := sp },
           bus := c.bus.write_word sp value }

/-- src/cpu.rs: `Cpu::pop` — word read at SP (panics at SP = 0xFFFF,
modelled as `none`), then SP is incremented by 2 (wrapping). -/
def Cpu.pop (c : Cpu) : Option (Nat × Cpu) :=
  (c.bus.read_word c.registers.sp).map fun r =>
    let regs := { c.registers with sp := (c.registers.sp + 2) % 65536 }
    (r.1, { c with bus := r.2, registers := regs })

/-- src/cpu.rs lines 379–399: the CB-prefixed second-level decode of the
already-fetched second opcode byte (exhaustive over 0–255). -/
def decodeCB (opcode : Nat) : Instruction :=
  if opcode ≤ 0o07 then .Rlc (inherent_register_operand opcode)
  else if opcode ≤ 0o17 then .Rrc (inherent_register_operand opcode)
  else if opcode ≤ 0o27 then .Rl (inherent_register_operand opcode)
  else if opcode ≤ 0o37 then .Rr (inherent_register_operand opcode)
  else if opcode ≤ 0o47 then .Sla (inherent_register_operand opcode)
  else if opcode ≤ 0o57 then .Sra (inherent_register_operand opcode)
  else if opcode ≤ 0o67 then .Swap (inherent_register_operand opcode)
  else if opcode ≤ 0o77 then .Srl (inherent_register_operand opcode)
  else if opcode ≤ 0o177 then
    .Bit ((opcode - 0o100) >>> 3) (inherent_register_operand opcode)
  else if opcode ≤ 0o277 then
    .Res ((opcode - 0o200) >>> 3) (inherent_register_operand opcode)
  else
    .Set ((opcode - 0o300) >>> 3) (inherent_register_operand opcode)

/-- src/cpu.rs lines 271–461: `Cpu::decode`.  The arms are transcribed in
source order; immediate fetches thread the CPU/bus state exactly as the
source's `self.fetch_imm8()` / `self.fetch_imm16()` calls do.  The final
`_ => panic!("Unhandled opcode ...")` arm is `none`; a `fetch_imm16`
panic at PC = 0xFFFF is also `none`. -/
def Cpu.decode (c : Cpu) (opcode : Nat) : Option (Instruction × Cpu) :=
  if opcode = 0o00 then some (.Nop, c)
  else if opcode = 0o01 ∨ opcode = 0o21 ∨ opcode = 0o41 ∨ opcode = 0o61 then
    (c.fetch_imm16).map fun r =>
      (.Ld (.RegisterPair (inherent_registerpair_operand (opcode >>> 3)))
        (.Immediate16 r.1), r.2)
  else if opcode = 0o07 then some (.Rlca, c)
  else if opcode = 0o17 then some (.Rrca, c)
  else if opcode = 0o27 then some (.Rla, c)
  else if opcode = 0o37 then some (.Rra, c)
  else if opcode = 0o47 then some (.Daa, c)
  else if opcode = 0o57 then some (.Cpl, c)
  else if opcode = 0o67 then some (.Scf, c)
  else if opcode = 0o77 then some (.Ccf, c)
  else if opcode = 0o11 ∨ opcode = 0o31 ∨ opcode = 0o51 ∨ opcode = 0o71 then
    some (.Add (.RegisterPair .HL)
      (.RegisterPair (inherent_registerpair_operand (opcode >>> 3))), c)
  else if opcode = 0o10 then
    (c.fetch_imm16).map fun r =>
      (.Ld (.IndirectImmediate16 r.1) (.RegisterPair .SP), r.2)
  else if opcode = 0o02 ∨ opcode = 0o22 then
    some (.Ld (.RegisterIndirect (inherent_registerpair_operand (opcode >>> 3)))
      (.Register .A), c)
  else if opcode = 0o12 ∨ opcode = 0o32 then
    some (.Ld (.Register .A)
      (.RegisterIndirect (inherent_registerpair_operand (opcode >>> 3))), c)
  else if opcode = 0o42 then
    some (.Ld (.Register .IncrementHL) (.Register .A), c)
  else if opcode = 0o52 then
    some (.Ld (.Register .A) (.Register .IncrementHL), c)
  else if opcode = 0o62 then
    some (.Ld (.Register .DecrementHL) (.Register .A), c)
  else if opcode = 0o72 then
    some (.Ld (.Register .A) (.Register .DecrementHL), c)
  else if opcode = 0o20 then some (.Stop, c)
  else if opcode = 0o30 then
    let r := c.fetch_imm8
    some (.Jr .Always r.1, r.2)
  else if opcode = 0o40 ∨ opcode = 0o50 ∨ opcode = 0o60 ∨ opcode = 0o70 then
    let r := c.fetch_imm8
    some (.Jr (inherent_condition_operand ((opcode - 0o40) >>> 3)) r.1, r.2)
  else if opcode = 0o03 ∨ opcode = 0o23 ∨ opcode = 0o43 ∨ opcode = 0o63 then
    some (.Inc (.RegisterPair (inherent_registerpair_operand (opcode >>> 3))), c)
  else if opcode = 0o13 ∨ opcode = 0o33 ∨ opcode = 0o53 ∨ opcode = 0o73 then
    some (.Dec (.RegisterPair (inherent_registerpair_operand (opcode >>> 3))), c)
  else if opcode % 8 = 0o04 ∧ opcode ≤ 0o74 then
    some (.Inc (.Register (inherent_register_operand ((opcode &&& 0o70) >>> 3))), c)
  else if opcode % 8 = 0o05 ∧ opcode ≤ 0o75 then
    some (.Dec (.Register (inherent_register_operand ((opcode &&& 0o70) >>> 3))), c)
  else if opcode % 8 = 0o06 ∧ opcode ≤ 0o76 then
    let r := c.fetch_imm8
    some (.Ld (.Register (inherent_register_operand ((opcode &&& 0o70) >>> 3)))
      (.Immediate8 r.1), r.2)
  else if opcode = 0o166 then some (.Halt, c)
  else if 0o100 ≤ opcode ∧ opcode ≤ 0o177 then
    some (.Ld (.Register (inherent_register_operand (opcode >>> 3)))
      (.Register (inherent_register_operand opcode)), c)
  else if 0o200 ≤ opcode ∧ opcode ≤ 0o207 then
    some (.Add (.Register .A) (.Register (inherent_register_operand opcode)), c)
  else if 0o210 ≤ opcode ∧ opcode ≤ 0o217 then
    some (.Adc (.Register (inherent_register_operand opcode)), c)
  else if 0o220 ≤ opcode ∧ opcode ≤ 0o227 then
    some (.Sub (.Register (inherent_register_operand opcode)), c)
  else if 0o230 ≤ opcode ∧ opcode ≤ 0o237 then
    some (.Sbc (.Register (inherent_register_operand opcode)), c)
  else if 0o240 ≤ opcode ∧ opcode ≤ 0o247 then
    some (.And (.Register (inherent_register_operand opcode)), c)
  else if 0o250 ≤ opcode ∧ opcode ≤ 0o257 then
    some (.Xor (.Register (inherent_register_operand opcode)), c)
  else if 0o260 ≤ opcode ∧ opcode ≤ 0o267 then
    some (.Or (.Register (inherent_register_operand opcode)), c)
  else if 0o270 ≤ opcode ∧ opcode ≤ 0o277 then
    some (.Cp (.Register (inherent_register_operand opcode)), c)
  else if opcode = 0o300 ∨ opcode = 0o310 ∨ opcode = 0o320 ∨ opcode = 0o330 then
    some (.Ret (inherent_condition_operand (opcode >>> 3)), c)
  else if opcode = 0o301 ∨ opcode = 0o321 ∨ opcode = 0o341 then
    some (.Pop (inherent_registerpair_operand ((opcode &&& 0o70) >>> 3)), c)
  else if opcode = 0o305 ∨ opcode = 0o325 ∨ opcode = 0o345 then
    some (.Push (inherent_registerpair_operand ((opcode &&& 0o70) >>> 3)), c)
  else if opcode = 0o361 then some (.Pop .AF, c)
  else if opcode = 0o365 then some (.Push .AF, c)
  else if opcode = 0o311 then some (.Ret .Always, c)
  else if opcode = 0o303 then
    (c.fetch_imm16).map fun r => (.Jp .Always (.Immediate16 r.1), r.2)
  else if opcode = 0o351 then some (.Jp .Always (.RegisterPair .HL), c)
  else if opcode = 0o302 ∨ opcode = 0o312 ∨ opcode = 0o322 ∨ opcode = 0o332 then
    (c.fetch_imm16).map fun r =>
      (.Jp (inherent_condition_operand (opcode >>> 3)) (.Immediate16 r.1), r.2)
  else if opcode = 0o304 ∨ opcode = 0o314 ∨ opcode = 0o324 ∨ opcode = 0o334 then
    (c.fetch_imm16).map fun r =>
      (.Call (inherent_condition_operand (opcode >>> 3)) r.1, r.2)
  else if opcode = 0o315 then
    (c.fetch_imm16).map fun r => (.Call .Always r.1, r.2)
  else if opcode = 0o313 then
    let r := c.fetch_imm8
    some (decodeCB r.1, r.2)
  else if opcode = 0o306 then
    let r := c.fetch_imm8
    some (.Add (.Register .A) (.Immediate8 r.1), r.2)
  else if opcode = 0o316 then
    let r := c.fetch_imm8
    some (.Adc (.Immediate8 r.1), r.2)
  else if opcode = 0o326 then
    let r := c.fetch_imm8
    some (.Sub (.Immediate8 r.1), r.2)
  else if opcode = 0o331 then some (.Reti, c)
  else if opcode = 0o336 then
    let r := c.fetch_imm8
    some (.Sbc (.Immediate8 r.1), r.2)
  else if opcode = 0o340 then
    let r := c.fetch_imm8
    some (.Ld (.IndirectImmediate8 r.1) (.Register .A), r.2)
  else if opcode = 0o342 then
    some (.Ld (.Register .IndirectC) (.Register .A), c)
  else if opcode = 0o346 then
    let r := c.fetch_imm8
    some (.And (.Immediate8 r.1), r.2)
  else if opcode = 0o350 then
    let r := c.fetch_imm8
    some (.Add (.RegisterPair .SP) (.Immediate8 r.1), r.2)
  else if opcode = 0o352 then
    (c.fetch_imm16).map fun r =>
      (.Ld (.IndirectImmediate16 r.1) (.Register .A), r.2)
  else if opcode = 0o356 then
    let r := c.fetch_imm8
    some (.Xor (.Immediate8 r.1), r.2)
  else if opcode = 0o360 then
    let r := c.fetch_imm8
    some (.Ld (.Register .A) (.IndirectImmediate8 r.1), r.2)
  else if opcode = 0o362 then
    some (.Ld (.Register .A) (.Register .IndirectC), c)
  else if opcode = 0o363 then some (.Di, c)
  else if opcode = 0o366 then
    let r := c.fetch_imm8
    some (.Or (.Immediate8 r.1), r.2)
  else if opcode = 0o370 then
    let r := c.fetch_imm8
    some (.Ld (.RegisterPair .HL) (.StackOffset r.1), r.2)
  else if opcode = 0o371 then
    some (.Ld (.RegisterPair .SP) (.RegisterPair .HL), c)
  else if opcode = 0o372 then
    (c.fetch_imm16).map fun r =>
      (.Ld (.Register .A) (.IndirectImmediate16 r.1), r.2)
  else if opcode = 0o373 then some (.Ei, c)
  else if opcode = 0o376 then
    let r := c.fetch_imm8
    some (.Cp (.Immediate8 r.1), r.2)
  else if opcode % 8 = 0o07 ∧ 0o307 ≤ opcode ∧ opcode ≤ 0o377 then
    some (.Rst (((opcode &&& 0o70) >>> 3) * 16), c)
  else none

/-- The condition test that `Cpu::execute` inlines in its Call/Jp/Jr/Ret
arms (`match condition { Always => true, Carry => c, ... }`). -/
def Flags.condHolds (f : Flags) : Condition → Bool
  | .Always => true
  | .Carry => f.c
  | .NonCarry => !f.c
  | .Zero => f.z
  | .NonZero => !f.z

/-- u8 `overflowing_sub`: the wrapped difference and the borrow flag. -/
def subByte (a v : Nat) : Nat × Bool :=
  (if v ≤ a then a - v else a + 256 - v, decide (a < v))

/-- A single bus byte read performed by the CPU (ticks once). -/
def Cpu.busRead (c : Cpu) (address : Nat) : Nat × Cpu :=
  let r := c.bus.read_byte address
  (r.1, { c with bus := r.2 })

/-- A single bus byte write performed by the CPU (ticks once). -/
def Cpu.busWrite (c : Cpu) (address value : Nat) : Cpu :=
  { c with bus := c.bus.write_byte address value }

/-- The 8-bit source-operand fetch that `Cpu::execute` repeats in its
ADD/ADC/SUB/SBC/AND/XOR/OR/CP arms: an `(HL)` operand performs one bus
read, a plain register operand reads the register file, an immediate is
returned as is, and anything else panics (`none`).  The source lists the
three cases in varying order per arm; the cases are disjoint, so one
ordering is semantically identical. -/
def Cpu.operandValue8 (c : Cpu) : Operand → Option (Nat × Cpu)
  | .Register .IndirectHL =>
    let r := c.busRead (c.get_register_pair .HL)
    some (r.1, r.2)
  | .Register reg => some (c.registers.get reg, c)
  | .Immediate8 value => some (value, c)
  | _ => none

/-- src/cpu.rs lines 464–1173: `Cpu::execute`.  Each handled arm is
transcribed from the source; flag writes follow the source's order (so a
flag read inside a later flag computation sees the old value).  Every
`panic!` — the inner "Illegal operand"/"Unhandled operand" arms and the
final `_ => panic!("Unhandled instruction ...")` catch-all, which is
what `Instruction::Daa`, `Instruction::Halt` and `Instruction::Stop`
fall into — is modelled as `none`. -/
def Cpu.execute (c : Cpu) : Instruction → Option Cpu
  | .Nop => some c
  | .Ld target source =>
    match target, source with
    | .Register .IndirectHL, .Register src =>
      some (c.busWrite (c.get_register_pair .HL) (c.registers.get src))
    | .Register .IndirectHL, .Immediate8 value =>
      some (c.busWrite (c.get_register_pair .HL) value)
    | .Register .DecrementHL, .Register src =>
      let c1 := c.busWrite (c.get_register_pair .HL) (c.registers.get src)
      some (c1.set_register_pair .HL ((c1.get_register_pair .HL + 65535) % 65536))
    | .Register .IncrementHL, .Register src =>
      let c1 := c.busWrite (c.get_register_pair .HL) (c.registers.get src)
      some (c1.set_register_pair .HL ((c1.get_register_pair .HL + 1) % 65536))
    | .Register src, .Register .IncrementHL =>
      let r := c.busRead (c.get_register_pair .HL)
      let c1 := { r.2 with registers := r.2.registers.set src r.1 }
      some (c1.set_register_pair .HL ((c1.get_register_pair .HL + 1) % 65536))
    | .Register .IndirectC, .Register .A =>
      some (c.busWrite (0xFF00 + c.registers.get .C) c.registers.a)
    | .Register .A, .Register .IndirectC =>
      let r := c.busRead (0xFF00 + c.registers.get .C)
      some { r.2 with registers := { r.2.registers with a := r.1 } }
    | .RegisterIndirect rp, .Register src =>
      some (c.busWrite (c.get_register_pair rp) (c.registers.get src))
    | .Register src, .RegisterIndirect rp =>
      let r := c.busRead (c.get_register_pair rp)
      some { r.2 with registers := r.2.registers.set src r.1 }
    | .Register src, .Register .IndirectHL =>
      let r := c.busRead (c.get_register_pair .HL)
      some { r.2 with registers := r.2.registers.set src r.1 }
    | .IndirectImmediate8 address, .Register src =>
      some (c.busWrite (0xFF00 + address) (c.registers.get src))
    | .Register src, .IndirectImmediate8 address =>
      let r := c.busRead (0xFF00 + address)
      some { r.2 with registers := r.2.registers.set src r.1 }
    | .IndirectImmediate16 address, .Register src =>
      some (c.busWrite address (c.registers.get src))
    | .IndirectImmediate16 address, .RegisterPair rp =>
      some { c with bus := c.bus.write_word address (c.get_register_pair rp) }
    | .Register src, .IndirectImmediate16 address =>
      let r := c.busRead address
      some { r.2 with registers := r.2.registers.set src r.1 }
    | .Register target, .Register .DecrementHL =>
      let value := c.get_register_pair .HL
      let r := c.busRead value
      let c1 := { r.2 with registers := r.2.registers.set target r.1 }
      some (c1.set_register_pair .HL ((value + 65535) % 65536))
    | .Register target, .Register src =>
      some { c with registers := c.registers.set target (c.registers.get src) }
    | .Register target, .Immediate8 value =>
      some { c with registers := c.registers.set target value }
    | .RegisterPair target, .Immediate16 value =>
      some (c.set_register_pair target value)
    | .RegisterPair target, .RegisterPair src =>
      some (c.set_register_pair target (c.get_register_pair src))
    | .RegisterPair _, .StackOffset value =>
      let sp := c.get_register_pair .SP
      let result := (sp + sext8to16 value) % 65536
      let fh : Bool := (sp &&& 0x0F) + (sext8to16 value &&& 0x0F) > 0x0F
      let fc : Bool := (sp &&& 0xFF) + (sext8to16 value &&& 0xFF) > 0xFF
      let flags : Flags := { z := false, n := false, h := fh, c := fc }
      some (({ c with flags := flags }).set_register_pair .HL result)
    | _, _ => none
  | .Add target source =>
    match target with
    | .Register .A =>
      (c.operandValue8 source).map fun r =>
        let c1 := r.2
        let value := r.1
        let a := c1.registers.a
        let fh : Bool := (a &&& 0x0F) + (value &&& 0x0F) > 0x0F
        let flags : Flags := { z := (a + value) % 256 = 0, n := false, h := fh, c := a + value ≥ 256 }
        { c1 with flags := flags, registers := { c1.registers with a := (a + value) % 256 } }
    | .RegisterPair rp =>
      match source with
      | .RegisterPair src =>
        let lhs := c.get_register_pair rp
        let rhs := c.get_register_pair src
        let fh : Bool := (lhs &&& 0x0FFF) + (rhs &&& 0x0FFF) > 0x0FFF
        let flags := { c.flags with n := false, h := fh, c := decide (lhs + rhs ≥ 65536) }
        some (({ c with flags := flags }).set_register_pair rp ((lhs + rhs) % 65536))
      | .Immediate8 value =>
        let lhs := c.get_register_pair rp
        let result := (lhs + sext8to16 value) % 65536
        let fh : Bool := (lhs &&& 0x0F) + (value &&& 0x0F) > 0x0F
        let fc : Bool := (lhs &&& 0xFF) + (value &&& 0xFF) > 0xFF
        let flags : Flags := { z := false, n := false, h := fh, c := fc }
        some (({ c with flags := flags }).set_register_pair rp result)
      | _ => none
    | _ => none
  | .Adc source =>
    (c.operandValue8 source).map fun r =>
      let c1 := r.2
      let value := r.1
      let a := c1.registers.a
      let cin := if c1.flags.c then 1 else 0
      let r1 := (a + value) % 256
      let carry1 := decide (a + value ≥ 256)
      let r2 := (r1 + cin) % 256
      let carry2 := decide (r1 + cin ≥ 256)
      let fh : Bool := (a &&& 0x0F) + (value &&& 0x0F) + cin > 0x0F
      let flags : Flags := { z := r2 = 0, n := false, h := fh, c := carry1 || carry2 }
      { c1 with flags := flags, registers := { c1.registers with a := r2 } }
  | .Sub source =>
    (c.operandValue8 source).map fun r =>
      let c1 := r.2
      let value := r.1
      let a := c1.registers.a
      let d := subByte a value
      let fh : Bool := (a &&& 0x0F) < (value &&& 0x0F)
      let flags : Flags := { z := d.1 = 0, n := true, h := fh, c := d.2 }
      { c1 with flags := flags, registers := { c1.registers with a := d.1 } }
  | .Sbc source =>
    (c.operandValue8 source).map fun r =>
      let c1 := r.2
      let value := r.1
      let a := c1.registers.a
      let cin := if c1.flags.c then 1 else 0
      let d1 := subByte a value
      let d2 := subByte d1.1 cin
      let fh : Bool := (a &&& 0x0F) < (value &&& 0x0F) + cin
      let flags : Flags := { z := d2.1 = 0, n := true, h := fh, c := d1.2 || d2.2 }
      { c1 with flags := flags, registers := { c1.registers with a := d2.1 } }
  | .Xor source =>
    (c.operandValue8 source).map fun r =>
      let c1 := r.2
      let a := c1.registers.a ^^^ r.1
      let flags : Flags := { z := a = 0, n := false, h := false, c := false }
      { c1 with flags := flags, registers := { c1.registers with a := a } }
  | .And source =>
    (c.operandValue8 source).map fun r =>
      let c1 := r.2
      let a := c1.registers.a &&& r.1
      let flags : Flags := { z := a = 0, n := false, h := true, c := false }
      { c1 with flags := flags, registers := { c1.registers with a := a } }
  | .Or source =>
    (c.operandValue8 source).map fun r =>
      let c1 := r.2
      let a := c1.registers.a ||| r.1
      let flags : Flags := { z := a = 0, n := false, h := false, c := false }
      { c1 with flags := flags, registers := { c1.registers with a := a } }
  | .Di => some { c with ime := false }
  | .Ei => some { c with ime := true }
  | .Bit bit register =>
    let r :=
      match register with
      | .IndirectHL => c.busRead (c.get_register_pair .HL)
      | _ => (c.registers.get register, c)
    let value := r.1 &&& (1 <<< bit)
    some { r.2 with flags := { r.2.flags with z := value = 0, n := false, h := true } }
  | .Set bit register =>
    match register with
    | .IndirectHL =>
      let rb := c.busRead (c.get_register_pair .HL)
      some (rb.2.busWrite (rb.2.get_register_pair .HL) (rb.1 ||| (1 <<< bit)))
    | _ =>
      some { c with registers := c.registers.set register (c.registers.get register ||| (1 <<< bit)) }
  | .Res bit register =>
    match register with
    | .IndirectHL =>
      let rb := c.busRead (c.get_register_pair .HL)
      some (rb.2.busWrite (rb.2.get_register_pair .HL)
        (rb.1 &&& ((1 <<< bit) ^^^ 0xFF)))
    | _ =>
      some { c with registers := c.registers.set register (c.registers.get register &&& ((1 <<< bit) ^^^ 0xFF)) }
  | .Push rp => some (c.push (c.get_register_pair rp))
  | .Pop rp => (c.pop).map fun r => r.2.set_register_pair rp r.1
  | .Rst address =>
    let c1 := c.push c.registers.pc
    some { c1 with registers := { c1.registers with pc := address } }
  | .Call condition address =>
    if c.flags.condHolds condition then
      let c1 := c.push c.registers.pc
      some { c1 with registers := { c1.registers with pc := address } }
    else some c
  | .Jp condition operand =>
    if c.flags.condHolds condition then
      match operand with
      | .RegisterPair .HL =>
        some { c with registers := { c.registers with pc := c.get_register_pair .HL } }
      | .Immediate16 address =>
        some { c with registers := { c.registers with pc := address } }
      | _ => none
    else some c
  | .Jr condition offset =>
    if c.flags.condHolds condition then
      some { c with registers := { c.registers with pc := (c.registers.pc + sext8to16 offset) % 65536 } }
    else some c
  | .Ret condition =>
    if c.flags.condHolds condition then
      (c.pop).map fun r =>
        { r.2 with registers := { r.2.registers with pc := r.1 } }
    else some c
  | .Reti =>
    (c.pop).map fun r =>
      { r.2 with registers := { r.2.registers with pc := r.1 }, ime := true }
  | .Inc operand =>
    match operand with
    | .RegisterPair rp =>
      some (c.set_register_pair rp ((c.get_register_pair rp + 1) % 65536))
    | .Register register =>
      let t :=
        match register with
        | .IndirectHL =>
          let rb := c.busRead (c.get_register_pair .HL)
          let result := (rb.1 + 1) % 256
          (rb.1, result, rb.2.busWrite (rb.2.get_register_pair .HL) result)
        | _ =>
          let value := c.registers.get register
          let result := (value + 1) % 256
          (value, result, { c with registers := c.registers.set register result })
      let c1 := t.2.2
      let fh : Bool := (t.1 &&& 0x0F) + 1 > 0x0F
      some { c1 with flags := { c1.flags with z := t.2.1 = 0, n := false, h := fh } }
    | _ => none
  | .Dec operand =>
    match operand with
    | .RegisterPair rp =>
      some (c.set_register_pair rp ((c.get_register_pair rp + 65535) % 65536))
    | .Register register =>
      let t :=
        match register with
        | .IndirectHL =>
          let rb := c.busRead (c.get_register_pair .HL)
          let result := (subByte rb.1 1).1
          (result, rb.2.busWrite (rb.2.get_register_pair .HL) result)
        | _ =>
          let value := c.registers.get register
          let result := (subByte value 1).1
          (result, { c with registers := c.registers.set register result })
      let c1 := t.2
      let fh : Bool := (t.1 &&& 0x0F) + 1 > 0x0F
      some { c1 with flags := { c1.flags with z := t.1 = 0, n := true, h := fh } }
    | _ => none
  | .Rl register =>
    let t :=
      match register with
      | .IndirectHL =>
        let r1 := c.busRead (c.get_register_pair .HL)
        let r2 := r1.2.busRead (r1.2.get_register_pair .HL)
        let shifted := (r1.1 <<< 1) % 256
        let carryOut := decide (r2.1 &&& 0x80 ≠ 0)
        (shifted, carryOut, r2.2.busWrite (r2.2.get_register_pair .HL)
          (shifted ||| (if c.flags.c then 1 else 0)))
      | _ =>
        let x := c.registers.get register
        let shifted := (x <<< 1) % 256
        let carryOut := decide (x &&& 0x80 ≠ 0)
        let regs := c.registers.set register (shifted ||| (if c.flags.c then 1 else 0))
        (shifted, carryOut, { c with registers := regs })
    let c1 := t.2.2
    some { c1 with flags := { z := (t.1 ||| (if c.flags.c then 1 else 0)) = 0, n := false, h := false, c := t.2.1 } }
  | .Rr register =>
    let t :=
      match register with
      | .IndirectHL =>
        let r1 := c.busRead (c.get_register_pair .HL)
        let r2 := r1.2.busRead (r1.2.get_register_pair .HL)
        let shifted := r1.1 >>> 1
        let carryOut := decide (r2.1 &&& 0x01 ≠ 0)
        (shifted, carryOut, r2.2.busWrite (r2.2.get_register_pair .HL)
          (shifted ||| (if c.flags.c then 0x80 else 0)))
      | _ =>
        let x := c.registers.get register
        let shifted := x >>> 1
        let carryOut := decide (x &&& 0x01 ≠ 0)
        let regs := c.registers.set register (shifted ||| (if c.flags.c then 0x80 else 0))
        (shifted, carryOut, { c with registers := regs })
    let c1 := t.2.2
    some { c1 with flags := { z := (t.1 ||| (if c.flags.c then 0x80 else 0)) = 0, n := false, h := false, c := t.2.1 } }
  | .Rla =>
    let a := c.registers.a
    let shifted := (a <<< 1) % 256
    let carryOut := decide (a &&& 0x80 ≠ 0)
    let regs := c.registers.set .A (shifted ||| (if c.flags.c then 1 else 0))
    some { c with registers := regs, flags := { z := false, n := false, h := false, c := carryOut } }
  | .Rra =>
    let a := c.registers.a
    let shifted := a >>> 1
    let carryOut := decide (a &&& 0x01 ≠ 0)
    let regs := c.registers.set .A (shifted ||| (if c.flags.c then 0x80 else 0))
    some { c with registers := regs, flags := { z := false, n := false, h := false, c := carryOut } }
  | .Rlca =>
    let a := c.registers.a
    let shifted := (a <<< 1) % 256
    let carryOut := decide (a &&& 0x80 ≠ 0)
    let regs := c.registers.set .A (shifted ||| (if carryOut then 1 else 0))
    some { c with registers := regs, flags := { z := false, n := false, h := false, c := carryOut } }
  | .Rrca =>
    let a := c.registers.a
    let shifted := a >>> 1
    let carryOut := decide (a &&& 0x01 ≠ 0)
    let regs := c.registers.set .A (shifted ||| (if carryOut then 0x80 else 0))
    some { c with registers := regs, flags := { z := false, n := false, h := false, c := carryOut } }
  | .Rlc register =>
    let t :=
      match register with
      | .IndirectHL =>
        let r1 := c.busRead (c.get_register_pair .HL)
        let r2 := r1.2.busRead (r1.2.get_register_pair .HL)
        let shifted := (r1.1 <<< 1) % 256
        let carryOut := decide (r2.1 &&& 0x80 ≠ 0)
        (shifted, carryOut, r2.2.busWrite (r2.2.get_register_pair .HL)
          (shifted ||| (if carryOut then 1 else 0)))
      | _ =>
        let x := c.registers.get register
        let shifted := (x <<< 1) % 256
        let carryOut := decide (x &&& 0x80 ≠ 0)
        let final := shifted ||| (if carryOut then 1 else 0)
        (final, carryOut, { c with registers := c.registers.set register final })
    let c1 := t.2.2
    some { c1 with flags := { z := t.1 = 0, n := false, h := false, c := t.2.1 } }
  | .Rrc register =>
    let t :=
      match register with
      | .IndirectHL =>
        let r1 := c.busRead (c.get_register_pair .HL)
        let r2 := r1.2.busRead (r1.2.get_register_pair .HL)
        let shifted := r1.1 >>> 1
        let carryOut := decide (r2.1 &&& 0x01 ≠ 0)
        (shifted, carryOut, r2.2.busWrite (r2.2.get_register_pair .HL)
          (shifted ||| (if carryOut then 0x80 else 0)))
      | _ =>
        let x := c.registers.get register
        let shifted := x >>> 1
        let carryOut := decide (x &&& 0x01 ≠ 0)
        let final := shifted ||| (if carryOut then 0x80 else 0)
        (final, carryOut, { c with registers := c.registers.set register final })
    let c1 := t.2.2
    some { c1 with flags := { z := t.1 = 0, n := false, h := false, c := t.2.1 } }
  | .Scf =>
    some { c with flags := { c.flags with n := false, h := false, c := true } }
  | .Ccf =>
    some { c with flags := { c.flags with n := false, h := false, c := !c.flags.c } }
  | .Sla register =>
    let t :=
      match register with
      | .IndirectHL =>
        let r1 := c.busRead (c.get_register_pair .HL)
        let r2 := r1.2.busRead (r1.2.get_register_pair .HL)
        let shifted := (r1.1 <<< 1) % 256
        let carryOut := decide (r2.1 &&& 0x80 ≠ 0)
        (shifted, carryOut, r2.2.busWrite (r2.2.get_register_pair .HL)
          (shifted ||| ((shifted >>> 1) &&& 1)))
      | _ =>
        let x := c.registers.get register
        let shifted := (x <<< 1) % 256
        let carryOut := decide (x &&& 0x80 ≠ 0)
        let regs := c.registers.set register (shifted ||| (((shifted <<< 1) % 256) &&& 1))
        (shifted, carryOut, { c with registers := regs })
    let c1 := t.2.2
    some { c1 with flags := { z := t.1 = 0, n := false, h := false, c := t.2.1 } }
  | .Sra register =>
    let t :=
      match register with
      | .IndirectHL =>
        let r1 := c.busRead (c.get_register_pair .HL)
        let r2 := r1.2.busRead (r1.2.get_register_pair .HL)
        let shifted := r1.1 >>> 1
        let carryOut := decide (r2.1 &&& 0x01 ≠ 0)
        (shifted, carryOut, r2.2.busWrite (r2.2.get_register_pair .HL)
          (shifted ||| ((shifted >>> 1) &&& 1)))
      | _ =>
        let x := c.registers.get register
        let shifted := x >>> 1
        let carryOut := decide (x &&& 0x01 ≠ 0)
        let final := shifted ||| (x &&& 0x80)
        (final, carryOut, { c with registers := c.registers.set register final })
    let c1 := t.2.2
    some { c1 with flags := { z := t.1 = 0, n := false, h := false, c := t.2.1 } }
  | .Srl register =>
    let t :=
      match register with
      | .IndirectHL =>
        let r1 := c.busRead (c.get_register_pair .HL)
        let r2 := r1.2.busRead (r1.2.get_register_pair .HL)
        let shifted := r1.1 >>> 1
        let carryOut := decide (r2.1 &&& 0x01 ≠ 0)
        (shifted, carryOut,
          r2.2.busWrite (r2.2.get_register_pair .HL) shifted)
      | _ =>
        let x := c.registers.get register
        let shifted := x >>> 1
        let carryOut := decide (x &&& 0x01 ≠ 0)
        (shifted, carryOut, { c with registers := c.registers.set register shifted })
    let c1 := t.2.2
    some { c1 with flags := { z := t.1 = 0, n := false, h := false, c := t.2.1 } }
  | .Swap register =>
    let t :=
      match register with
      | .IndirectHL =>
        let r1 := c.busRead (c.get_register_pair .HL)
        let result := (r1.1 >>> 4) ||| ((r1.1 <<< 4) % 256)
        (result, r1.2.busWrite (r1.2.get_register_pair .HL) result)
      | _ =>
        let x := c.registers.get register
        let result := (x >>> 4) ||| ((x <<< 4) % 256)
        (result, { c with registers := c.registers.set register result })
    let c1 := t.2
    some { c1 with flags := { z := t.1 = 0, n := false, h := false, c := false } }
  | .Cp source =>
    (c.operandValue8 source).map fun r =>
      let c1 := r.2
      let value := r.1
      let a := c1.registers.a
      let d := subByte a value
      { c1 with flags := { z := d.1 = 0, n := true, h := (a &&& 0x0F) < (value &&& 0x0F), c := d.2 } }
  | .Cpl =>
    some { c with registers := { c.registers with a := c.registers.a ^^^ 0xFF }, flags := { c.flags with n := true, h := true } }
  | _ => none

/-! ## Specification-side models

The definitions below follow the words of the specification (not the
source); they exist only to be compared against the source-derived
definitions above. -/

/-- The ROM-bank read rule of spec §4.3 as claim C3 states it: a read of
`a` in 0x4000–0x7FFF returns the ROM byte at `b·0x4000 + (a − 0x4000)`,
where `b` is the bank register with 0x00/0x20/0x40/0x60 remapped to
`b + 1`. -/
def specMbc1BankedRead (rom : Nat → Nat) (active_bank address : Nat) : Nat :=
  let bank :=
    if active_bank = 0x00 ∨ active_bank = 0x20 ∨
       active_bank = 0x40 ∨ active_bank = 0x60
    then active_bank + 1 else active_bank
  rom (bank * 0x4000 + (address - 0x4000))

/-- The operations a timer undergoes in the running system: M-cycle
ticks and register writes (the bus forwards 0xFF04–0xFF07 writes). -/
inductive TimerOp where
  | tick
  | write (address value : Nat)

/-- One timer operation applied to the source-derived timer. -/
def Timer.apply (t : Timer) : TimerOp → Timer
  | .tick => (t.tick).1
  | .write a v => t.write_byte a v

/-- A trace of timer operations run from `Timer.default`. -/
def Timer.runTrace (ops : List TimerOp) : Timer :=
  ops.foldl Timer.apply Timer.default

/-- Modelled from the spec (claim C4 and spec §4.2 / §9 "Timer edge
detection"): the cached signal is the composite — the selected sysclock
bit ANDed with the enable bit — and TIMA is incremented exactly when the
composite falls from 1 to 0 across a tick, so a fall caused by clearing
the enable bit increments TIMA at the next tick. -/
structure SpecTimer where
  sysclock : Nat
  tima : Nat
  tma : Nat
  composite : Bool
  tima_enable : Bool
  clock_select : Nat

/-- Modelled from the spec: the initial spec-timer state (all zero). -/
def SpecTimer.default : SpecTimer :=
  { sysclock := 0, tima := 0, tma := 0, composite := false,
    tima_enable := false, clock_select := 0 }

/-- Modelled from the spec: one tick of the composite-edge timer. -/
def SpecTimer.tick (t : SpecTimer) : SpecTimer × Option Interrupt :=
  let sysclock := (t.sysclock + 4) % 65536
  let composite := Timer.selBit t.clock_select sysclock && t.tima_enable
  if t.composite && !composite then
    if t.tima + 1 ≥ 256 then
      ({ t with sysclock := sysclock, composite := composite, tima := t.tma },
       some Interrupt.Timer)
    else
      ({ t with sysclock := sysclock, composite := composite, tima := (t.tima + 1) % 256 }, none)
  else
    ({ t with sysclock := sysclock, composite := composite }, none)

/-- Modelled from the spec (§4.2 register table): timer register writes
(identical to the source's `Timer::write_byte` on the shared fields). -/
def SpecTimer.write_byte (t : SpecTimer) (address value : Nat) : SpecTimer :=
  if address = 0xFF04 then { t with sysclock := 0 }
  else if address = 0xFF05 then { t with tima := value }
  else if address = 0xFF06 then { t with tma := value }
  else if address = 0xFF07 then
    { t with tima_enable := value &&& 4 ≠ 0, clock_select := value &&& 3 }
  else t

/-- One timer operation applied to the spec-modelled timer. -/
def SpecTimer.apply (t : SpecTimer) : TimerOp → SpecTimer
  | .tick => (t.tick).1
  | .write a v => t.write_byte a v

/-- A trace of timer operations run from `SpecTimer.default`. -/
def SpecTimer.runTrace (ops : List TimerOp) : SpecTimer :=
  ops.foldl SpecTimer.apply SpecTimer.default

/-- The concrete timer trace separating the source timer from the
claim-C4 rule: enable with select 1 (bit 3), tick twice so the selected
bit rises, clear the enable bit, tick once more. -/
def c4Trace : List TimerOp :=
  [.write 0xFF07 0x05, .tick, .tick, .write 0xFF07 0x01, .tick]

/-- The public bus transactions used to describe reachable bus states:
a bare tick, a byte read, a byte write, and the post-boot initialiser
(word transactions are compositions of byte transactions). -/
inductive BusOp where
  | tick
  | readByte (address : Nat)
  | writeByte (address value : Nat)
  | setPostBoot

/-- One bus transaction applied to the bus state. -/
def DmgBus.applyOp (b : DmgBus) : BusOp → DmgBus
  | .tick => b.tick
  | .readByte a => (b.read_byte a).2
  | .writeByte a v => b.write_byte a v
  | .setPostBoot => b.set_post_boot_state

/-- Bits 5–7 of a value are all set. -/
def natHigh3 (x : Nat) : Prop :=
  x.testBit 5 ∧ x.testBit 6 ∧ x.testBit 7

/-- Bits 5–7 of the interrupt-flag register are all set. -/
def ifHighBitsSet (b : DmgBus) : Prop :=
  natHigh3 b.interrupt_flags

/-- The opcodes with no arm in `Cpu::decode` (the SM83 illegal opcodes);
every one of them hits decode's `panic!("Unhandled opcode ...")`. -/
def illegalOpcodes : List Nat :=
  [0xD3, 0xDB, 0xDD, 0xE3, 0xE4, 0xEB, 0xEC, 0xED, 0xF4, 0xFC, 0xFD]

/-- A concrete CPU state (PC = 0x1234, SP = 0xC010, default bus) used to
exercise RST concretely. -/
def c5Cpu : Cpu :=
  { Cpu.default with registers := { Cpu.default.registers with pc := 0x1234, sp := 0xC010 } }

/-! ## Helper lemmas (shared across claims) -/

theorem Timer.tick_sysclock (t : Timer) :
    (Timer.tick t).1.sysclock = (t.sysclock + 4) % 65536 := by
  unfold Timer.tick
  dsimp only
  split
  · split
    · split <;> rfl
    · rfl
  · rfl

theorem DmgBus.tick_timer (b : DmgBus) : (b.tick).timer = (Timer.tick b.timer).1 := rfl

theorem DmgBus.tick_ppu (b : DmgBus) : (b.tick).ppu = b.ppu := rfl

theorem DmgBus.tick_wram (b : DmgBus) : (b.tick).wram = b.wram := rfl

theorem DmgBus.tick_hram (b : DmgBus) : (b.tick).hram = b.hram := rfl

theorem DmgBus.tick_bootrom_enabled (b : DmgBus) :
    (b.tick).bootrom_enabled = b.bootrom_enabled := rfl

theorem DmgBus.tick_cartridge (b : DmgBus) : (b.tick).cartridge = b.cartridge := rfl

theorem DmgBus.tick_serial (b : DmgBus) : (b.tick).serial = b.serial := rfl

theorem DmgBus.tick_interrupt_flags (b : DmgBus) :
    (b.tick).interrupt_flags =
      (if (Timer.tick b.timer).2 = some Interrupt.Timer
       then b.interrupt_flags ||| 4 else b.interrupt_flags) := by
  unfold DmgBus.tick Ppu.tick
  rcases h : (Timer.tick b.timer).2 with _ | i
  · simp [h]
  · cases i <;> simp [h]

theorem DmgBus.tick_advances_sysclock (b : DmgBus) :
    (b.tick).timer.sysclock = (b.timer.sysclock + 4) % 65536 := by
  rw [DmgBus.tick_timer, Timer.tick_sysclock]

/-! ## Claim theorems -/

set_option maxRecDepth 10000

/-- C1: the claim says every non-illegal, non-STOP opcode survives
decode-then-execute, and in particular DAA (0x27) and HALT (0x76) are
handled by execute.  The code refutes the DAA/HALT part: decode maps
0x27 to `Instruction::Daa` and 0x76 to `Instruction::Halt`, but
`Cpu::execute` has no arm for either, so both fall into its
`panic!("Unhandled instruction ...")` catch-all (modelled as `none`).
Every other non-illegal, non-STOP opcode — and every CB-prefixed
instruction — does decode and execute without reaching an unhandled
branch, as the two sweeps confirm. -/
theorem c1_daa_halt_unhandled_in_execute :
    (Cpu.decode Cpu.default 0x27).map Prod.fst = some Instruction.Daa ∧
    Cpu.execute Cpu.default Instruction.Daa = none ∧
    (Cpu.decode Cpu.default 0x76).map Prod.fst = some Instruction.Halt ∧
    Cpu.execute Cpu.default Instruction.Halt = none ∧
    (((List.range 256).filter (fun op =>
        !(illegalOpcodes.contains op) && op ≠ 0x10 && op ≠ 0x27 && op ≠ 0x76)).all
      (fun op =>
        match Cpu.decode Cpu.default op with
        | some r => (Cpu.execute r.2 r.1).isSome
        | none => false)) = true ∧
    ((List.range 256).all
      (fun b2 => (Cpu.execute Cpu.default (decodeCB b2)).isSome)) = true := by
  exact ⟨rfl, rfl, rfl, rfl, by decide, by decide⟩

/-- C2: the claim says executing EI does not make IME true at the end of
that instruction.  The code refutes it: the `Instruction::Ei` arm of
`Cpu::execute` is `self.ime = true;` (with a `// TODO delay` comment),
so IME is already true when EI's execute returns. -/
theorem c2_ei_sets_ime_immediately :
    Cpu.default.ime = false ∧
    (Cpu.decode Cpu.default 0xFB).map Prod.fst = some Instruction.Ei ∧
    (Cpu.execute Cpu.default Instruction.Ei).map Cpu.ime = some true :=
  ⟨rfl, rfl, rfl⟩

/-- C3: the claim says an MBC1 read of `a` in 0x4000–0x7FFF returns the
ROM byte at `bank * 0x4000 + (a - 0x4000)`.  The code refutes it: the
read computes the index as `address * u16::from(active_bank)` instead.
With ROM byte `i % 256`, bank 2 (written as 0x02 to 0x2000) and address
0x4001, the code reads `rom[0x8002] = 2` while the claimed rule reads
`rom[0x8001] = 1`. -/
theorem c3_mbc1_read_multiplies_address_by_bank :
    Cartridge.read_byte
      (Cartridge.write_byte (Cartridge.mbc1 (fun i => i % 256) none 1 false)
        0x2000 0x02) 0x4001 = 0x02 ∧
    specMbc1BankedRead (fun i => i % 256) 0x02 0x4001 = 0x01 ∧
    Cartridge.read_byte
      (Cartridge.write_byte (Cartridge.mbc1 (fun i => i % 256) none 1 false)
        0x2000 0x02) 0x4001 ≠
      specMbc1BankedRead (fun i => i % 256) 0x02 0x4001 := by
  exact ⟨rfl, rfl, by decide⟩

/-- C5: the claim says RST's fixed target is `((opcode >> 3) & 7) * 8`,
one of {0x00, 0x08, ..., 0x38}.  The code refutes it: decode builds
`Instruction::Rst(((opcode & 0o70) >> 3) * 16)` — sixteen, not eight —
so opcode 0xE7 decodes to RST 0x40 (the claim says 0x20), a target
outside the claimed set.  The push part of the claim holds: execute
pushes the post-opcode PC (0x1234, little-endian at SP−2) and then sets
PC to the decoded target. -/
theorem c5_rst_target_times_16 :
    (Cpu.decode Cpu.default 0xE7).map Prod.fst = some (Instruction.Rst 0x40) ∧
    ((0xE7 >>> 3) &&& 7) * 8 = 0x20 ∧
    (0x40 : Nat) ∉ [0x00, 0x08, 0x10, 0x18, 0x20, 0x28, 0x30, 0x38] ∧
    (Cpu.execute c5Cpu (Instruction.Rst 0x40)).map
        (fun cf => (cf.registers.pc, cf.registers.sp,
          cf.bus.peek_byte 0xC00E, cf.bus.peek_byte 0xC00F)) =
      some (0x40, 0xC00E, 0x34, 0x12) := by
  exact ⟨rfl, by decide, by decide, by decide⟩

/-- C9: the claim says the post-boot state gives the timer sysclock high
byte 0xAB, so reading DIV (0xFF04) returns 0xAB.  The code refutes it:
`set_post_boot_state` stores the literal 0xAB into the 16-bit sysclock
(high byte 0x00), so a DIV read — which returns `sysclock >> 8` —
yields 0x00, not 0xAB. -/
theorem c9_postboot_div_reads_zero :
    (DmgBus.set_post_boot_state DmgBus.default).timer.sysclock = 0xAB ∧
    (DmgBus.set_post_boot_state DmgBus.default).peek_byte 0xFF04 = 0x00 ∧
    ((DmgBus.set_post_boot_state DmgBus.default).read_byte 0xFF04).1 = 0x00 ∧
    (0x00 : Nat) ≠ 0xAB :=
  ⟨rfl, rfl, rfl, by decide⟩

/-- C4 counterexample: the claim says TIMA is incremented exactly when
the composite signal (selected sysclock bit AND enable) falls 1→0,
including a fall caused by clearing the enable bit.  Running the same
concrete trace — enable the timer with select 1, tick to raise bit 3,
clear the enable bit, tick once more — through the source timer and
through the claim's composite-edge rule gives TIMA 0 versus 1: the
source timer skips edge detection entirely while disabled and misses
the enable-clear fall. -/
theorem c4_counterexample_gated_edge :
    (Timer.runTrace c4Trace).tima = 0 ∧
    (SpecTimer.runTrace c4Trace).tima = 1 ∧
    (Timer.runTrace c4Trace).tima ≠ (SpecTimer.runTrace c4Trace).tima :=
  ⟨rfl, rfl, by decide⟩

/-- C6 counterexample: the claim says bits 5–7 of every IF read through
the bus are 1 in every reachable state.  The default-constructed bus —
the initial state — has `interrupt_flags = 0`, and both `peek_byte` and
`read_byte` at 0xFF0F return that raw field, so the first IF read
returns 0x00, whose bits 5–7 are 0. -/
theorem c6_counterexample_default_if_reads_zero :
    DmgBus.peek_byte DmgBus.default 0xFF0F = 0x00 ∧
    (DmgBus.read_byte DmgBus.default 0xFF0F).1 = 0x00 ∧
    ¬ ((0x00 : Nat).testBit 5 ∧ (0x00 : Nat).testBit 6 ∧ (0x00 : Nat).testBit 7) :=
  ⟨rfl, rfl, by decide⟩

/-- C8 counterexample: the claim includes cartridge RAM (when enabled)
among the regions where `write_byte(a, v); peek_byte(a)` returns `v`.
With an MBC1 cartridge whose RAM is present and enabled, writing 0x42
to 0xA000 is ignored — `Mbc1::write_byte` only matches 0x0000–0x3FFF
and drops everything else — so the subsequent peek returns the old
byte 0x00, not 0x42. -/
theorem c8_counterexample_cartridge_ram_write_dropped :
    ((DmgBus.write_byte
        { DmgBus.default with
            cartridge := some (Cartridge.mbc1 (fun _ => 0) (some fun _ => 0) 1 true) }
        0xA000 0x42).peek_byte 0xA000) = 0x00 ∧
    (0x00 : Nat) ≠ 0x42 :=
  ⟨rfl, by decide⟩

/-- C4 (amended): one tick always adds 4 to the 16-bit sysclock,
wrapping.  When the enable bit is set, the cached edge bit is
recomputed from the new sysclock and TIMA is incremented exactly when
that cached bit falls from 1 to 0 across the tick; a tick with the
enable bit clear leaves TIMA and the cached bit untouched, so a
composite fall caused by clearing the enable bit never increments TIMA.
When the increment overflows, TIMA is reloaded from TMA and the tick
yields a Timer interrupt, which the bus tick ORs into IF as bit 2. -/
theorem c4_amended_gated_edge_tick : ∀ (t : Timer) (b : DmgBus),
    (Timer.tick t).1.sysclock = (t.sysclock + 4) % 65536 ∧
    (Timer.tick t).1.edge =
      (if t.tima_enable
       then Timer.selBit t.clock_select ((t.sysclock + 4) % 65536) else t.edge) ∧
    (Timer.tick t).1.tima =
      (if t.tima_enable && t.edge &&
          !(Timer.selBit t.clock_select ((t.sysclock + 4) % 65536))
       then (if t.tima + 1 ≥ 256 then t.tma else (t.tima + 1) % 256)
       else t.tima) ∧
    ((Timer.tick t).2 = some Interrupt.Timer ↔
      (t.tima_enable && t.edge &&
        !(Timer.selBit t.clock_select ((t.sysclock + 4) % 65536))) = true ∧
      t.tima + 1 ≥ 256) ∧
    (DmgBus.tick b).interrupt_flags =
      (if (Timer.tick b.timer).2 = some Interrupt.Timer
       then b.interrupt_flags ||| 4 else b.interrupt_flags) := by
  intro t b
  refine ⟨Timer.tick_sysclock t, ?_, ?_, ?_, DmgBus.tick_interrupt_flags b⟩ <;>
    · unfold Timer.tick
      dsimp only
      cases hen : t.tima_enable <;> cases hedge : t.edge <;>
        cases hbit : Timer.selBit t.clock_select ((t.sysclock + 4) % 65536) <;>
        by_cases hov : t.tima + 1 ≥ 256 <;>
        simp [hen, hedge, hbit, hov]

/-- The timer and interrupt-flag fields after the store part of a bus
write: only a 0xFF04–0xFF07 write touches the timer, and only a 0xFF0F
write (which stores `0xE0 | value`) touches the interrupt flags. -/
theorem write_store_timer_and_flags (b : DmgBus) (a v : Nat) :
    (b.write_store a v).timer =
      (if 0xFF04 ≤ a ∧ a ≤ 0xFF07 then Timer.write_byte b.timer a v else b.timer) ∧
    (b.write_store a v).interrupt_flags =
      (if a = 0xFF0F then 0xE0 ||| v else b.interrupt_flags) := by
  unfold DmgBus.write_store
  by_cases h1 : a ≤ 0x7FFF ∨ (0xA000 ≤ a ∧ a ≤ 0xBFFF)
  · rw [if_pos h1, if_neg (show ¬(0xFF04 ≤ a ∧ a ≤ 0xFF07) by omega),
      if_neg (show ¬(a = 0xFF0F) by omega)]
    rcases b.cartridge with _ | cart <;> exact ⟨rfl, rfl⟩
  · rw [if_neg h1]
    by_cases h2 : a ≤ 0x9FFF
    · rw [if_pos h2, if_neg (show ¬(0xFF04 ≤ a ∧ a ≤ 0xFF07) by omega),
        if_neg (show ¬(a = 0xFF0F) by omega)]
      exact ⟨rfl, rfl⟩
    · rw [if_neg h2]
      by_cases h3 : a ≤ 0xDFFF
      · rw [if_pos h3, if_neg (show ¬(0xFF04 ≤ a ∧ a ≤ 0xFF07) by omega),
          if_neg (show ¬(a = 0xFF0F) by omega)]
        exact ⟨rfl, rfl⟩
      · rw [if_neg h3]
        by_cases h4 : a ≤ 0xFDFF
        · rw [if_pos h4, if_neg (show ¬(0xFF04 ≤ a ∧ a ≤ 0xFF07) by omega),
            if_neg (show ¬(a = 0xFF0F) by omega)]
          exact ⟨rfl, rfl⟩
        · rw [if_neg h4]
          by_cases h5 : 0xFE00 ≤ a ∧ a ≤ 0xFE9F
          · rw [if_pos h5, if_neg (show ¬(0xFF04 ≤ a ∧ a ≤ 0xFF07) by omega),
              if_neg (show ¬(a = 0xFF0F) by omega)]
            exact ⟨rfl, rfl⟩
          · rw [if_neg h5]
            by_cases h6 : a = 0xFF01
            · rw [if_pos h6, if_neg (show ¬(0xFF04 ≤ a ∧ a ≤ 0xFF07) by omega),
                if_neg (show ¬(a = 0xFF0F) by omega)]
              exact ⟨rfl, rfl⟩
            · rw [if_neg h6]
              by_cases h7 : a = 0xFF02
              · rw [if_pos h7, if_neg (show ¬(0xFF04 ≤ a ∧ a ≤ 0xFF07) by omega),
                  if_neg (show ¬(a = 0xFF0F) by omega)]
                exact ⟨rfl, rfl⟩
              · rw [if_neg h7]
                by_cases h8 : 0xFF04 ≤ a ∧ a ≤ 0xFF07
                · rw [if_pos h8, if_pos h8, if_neg (show ¬(a = 0xFF0F) by omega)]
                  exact ⟨rfl, rfl⟩
                · rw [if_neg h8, if_neg h8]
                  by_cases h9 : a = 0xFF0F
                  · rw [if_pos h9, if_pos h9]
                    exact ⟨rfl, rfl⟩
                  · rw [if_neg h9, if_neg h9]
                    by_cases h10 : a = 0xFF42
                    · rw [if_pos h10]
                      exact ⟨rfl, rfl⟩
                    · rw [if_neg h10]
                      by_cases h11 : a = 0xFF50
                      · rw [if_pos h11]
                        refine ⟨?_, ?_⟩ <;> split <;> rfl
                      · rw [if_neg h11]
                        by_cases h12 : 0xFF80 ≤ a ∧ a ≤ 0xFFFE
                        · rw [if_pos h12]
                          exact ⟨rfl, rfl⟩
                        · rw [if_neg h12]
                          by_cases h13 : a = 0xFFFF
                          · rw [if_pos h13]
                            exact ⟨rfl, rfl⟩
                          · rw [if_neg h13]
                            exact ⟨rfl, rfl⟩

/-- The interrupt-flag field after the store part of a bus write: a
write to 0xFF0F stores `0xE0 | value`; every other address leaves it
unchanged. -/
theorem write_store_interrupt_flags (b : DmgBus) (a v : Nat) :
    (b.write_store a v).interrupt_flags =
      if a = 0xFF0F then 0xE0 ||| v else b.interrupt_flags :=
  (write_store_timer_and_flags b a v).2

theorem natHigh3_or (x y : Nat) (h : natHigh3 x) : natHigh3 (x ||| y) := by
  obtain ⟨h5, h6, h7⟩ := h
  refine ⟨?_, ?_, ?_⟩ <;> simp [Nat.testBit_lor, h5, h6, h7]

theorem natHigh3_e0_or (v : Nat) : natHigh3 (0xE0 ||| v) := by
  refine ⟨?_, ?_, ?_⟩ <;> simp [Nat.testBit_lor] <;> exact Or.inl rfl

theorem natHigh3_tick (b : DmgBus) (h : natHigh3 b.interrupt_flags) :
    natHigh3 (b.tick).interrupt_flags := by
  rw [DmgBus.tick_interrupt_flags]
  split
  · exact natHigh3_or _ 4 h
  · exact h

theorem write_store_high3 (b : DmgBus) (a v : Nat)
    (h : natHigh3 b.interrupt_flags) :
    natHigh3 (b.write_store a v).interrupt_flags := by
  rw [write_store_interrupt_flags]
  split
  · exact natHigh3_e0_or v
  · exact h

/-- Reading 0xFF0F through the decoder returns the raw IF field. -/
theorem peek_ff0f (b : DmgBus) : b.peek_byte 0xFF0F = b.interrupt_flags := by
  unfold DmgBus.peek_byte
  rw [if_neg (by rintro ⟨-, hlt⟩; omega)]
  norm_num

/-- C6 (amended): reading 0xFF0F through the bus — via peek_byte or
read_byte — returns the interrupt-flag field unchanged.  Bits 5–7 of
that field are all 1 in every state reached by the public bus
transactions (ticks, byte reads, byte writes, the post-boot
initialiser) from any state where they already are — in particular
after any bus write to 0xFF0F, which stores `0xE0 | value` — but the
default-constructed bus starts with IF = 0, so the invariant only holds
once 0xFF0F has been written. -/
theorem c6_amended_if_high_bits : ∀ (b : DmgBus) (op : BusOp) (v : Nat),
    b.peek_byte 0xFF0F = b.interrupt_flags ∧
    (b.read_byte 0xFF0F).1 = b.interrupt_flags ∧
    (ifHighBitsSet b → ifHighBitsSet (b.applyOp op)) ∧
    ifHighBitsSet (b.write_byte 0xFF0F v) := by
  intro b op v
  refine ⟨peek_ff0f b, peek_ff0f b, ?_, ?_⟩
  · intro h
    rcases op with _ | a | ⟨a, w⟩ | _
    · exact natHigh3_tick b h
    · exact natHigh3_tick b h
    · exact natHigh3_tick _ (write_store_high3 b a w h)
    · exact h
  · refine natHigh3_tick _ ?_
    rw [write_store_interrupt_flags, if_pos rfl]
    exact natHigh3_e0_or v

/-- C6 witness: the amended invariant applied at a concrete state —
after writing 0 to 0xFF0F on the default bus, a further tick keeps
bits 5–7 of IF set. -/
theorem c6_amended_if_high_bits_witness :
    ifHighBitsSet ((DmgBus.default.write_byte 0xFF0F 0x00).applyOp BusOp.tick) := by
  exact (c6_amended_if_high_bits (DmgBus.default.write_byte 0xFF0F 0x00)
    BusOp.tick 0).2.2.1 ⟨by decide, by decide, by decide⟩

/-- The timer after the store part of a bus write at a non-timer
address is unchanged. -/
theorem write_store_timer (b : DmgBus) (a v : Nat)
    (h : ¬(0xFF04 ≤ a ∧ a ≤ 0xFF07)) :
    (b.write_store a v).timer = b.timer := by
  rw [(write_store_timer_and_flags b a v).1, if_neg h]

/-- C7: every public byte transaction is the access followed by exactly
one bus tick — `read_byte` is peek-then-tick and `write_byte` is
store-then-tick, so the timer's sysclock advances by exactly 4 per byte
access (for writes, provided the access itself does not store into the
timer's registers 0xFF04–0xFF07) and the display stub is ticked (its
tick is the identity and returns no interrupt; the timer's interrupt is
then ORed into IF, per the bus-tick characterisation shared with C4).
`read_word` and `write_word` are exactly two byte transactions at
consecutive addresses, little-endian, and a word read hence advances
the sysclock by exactly 8. -/
theorem c7_byte_access_pairs_with_one_tick : ∀ (b : DmgBus) (a v : Nat),
    b.read_byte a = (b.peek_byte a, b.tick) ∧
    b.write_byte a v = (b.write_store a v).tick ∧
    (b.tick).timer.sysclock = (b.timer.sysclock + 4) % 65536 ∧
    (b.tick).ppu = (Ppu.tick b.ppu).1 ∧
    (b.read_byte a).2.timer.sysclock = (b.timer.sysclock + 4) % 65536 ∧
    (¬(0xFF04 ≤ a ∧ a ≤ 0xFF07) →
      (b.write_byte a v).timer.sysclock = (b.timer.sysclock + 4) % 65536) ∧
    (a ≤ 0xFFFE →
      b.read_word a =
        some ((((b.tick).peek_byte (a + 1)) <<< 8) ||| b.peek_byte a,
          (b.tick).tick)) ∧
    (a ≤ 0xFFFE →
      ((b.read_word a).map fun r => r.2.timer.sysclock) =
        some ((b.timer.sysclock + 8) % 65536)) ∧
    b.write_word a v =
      (b.write_byte a (v % 256)).write_byte ((a + 1) % 65536) ((v >>> 8) % 256) := by
  intro b a v
  refine ⟨rfl, rfl, DmgBus.tick_advances_sysclock b, rfl, DmgBus.tick_advances_sysclock b,
    ?_, ?_, ?_, rfl⟩
  · intro h
    show ((b.write_store a v).tick).timer.sysclock = _
    rw [DmgBus.tick_advances_sysclock, write_store_timer b a v h]
  · intro h
    unfold DmgBus.read_word
    rw [if_pos (by omega)]
    rfl
  · intro h
    unfold DmgBus.read_word
    rw [if_pos (by omega)]
    show some (((b.tick).tick).timer.sysclock) = _
    rw [DmgBus.tick_advances_sysclock, DmgBus.tick_advances_sysclock]
    congr 1
    omega

/-- C7 witness: the theorem applied at the default bus, address 0x8000,
value 1. -/
theorem c7_byte_access_pairs_with_one_tick_witness :
    (DmgBus.default.write_byte 0x8000 1).timer.sysclock =
      (DmgBus.default.timer.sysclock + 4) % 65536 ∧
    ((DmgBus.default.read_word 0x8000).map fun r => r.2.timer.sysclock) =
      some ((DmgBus.default.timer.sysclock + 8) % 65536) := by
  obtain ⟨-, -, -, -, -, h6, -, h8, -⟩ :=
    c7_byte_access_pairs_with_one_tick DmgBus.default 0x8000 1
  exact ⟨h6 (by decide), h8 (by decide)⟩

theorem write_store_vram (b : DmgBus) (a v : Nat) (h : 0x8000 ≤ a ∧ a ≤ 0x9FFF) :
    b.write_store a v =
      { b with ppu := { b.ppu with vram := upd b.ppu.vram (a - 0x8000) v } } := by
  unfold DmgBus.write_store
  rw [if_neg (show ¬(a ≤ 0x7FFF ∨ (0xA000 ≤ a ∧ a ≤ 0xBFFF)) by omega),
    if_pos (show a ≤ 0x9FFF by omega)]

theorem write_store_wram (b : DmgBus) (a v : Nat) (h : 0xC000 ≤ a ∧ a ≤ 0xDFFF) :
    b.write_store a v = { b with wram := upd b.wram (a - 0xC000) v } := by
  unfold DmgBus.write_store
  rw [if_neg (show ¬(a ≤ 0x7FFF ∨ (0xA000 ≤ a ∧ a ≤ 0xBFFF)) by omega),
    if_neg (show ¬(a ≤ 0x9FFF) by omega), if_pos (show a ≤ 0xDFFF by omega)]

theorem write_store_echo (b : DmgBus) (a v : Nat) (h : 0xE000 ≤ a ∧ a ≤ 0xFDFF) :
    b.write_store a v = { b with wram := upd b.wram (a - 0xE000) v } := by
  unfold DmgBus.write_store
  rw [if_neg (show ¬(a ≤ 0x7FFF ∨ (0xA000 ≤ a ∧ a ≤ 0xBFFF)) by omega),
    if_neg (show ¬(a ≤ 0x9FFF) by omega), if_neg (show ¬(a ≤ 0xDFFF) by omega),
    if_pos (show a ≤ 0xFDFF by omega)]

theorem write_store_oam (b : DmgBus) (a v : Nat) (h : 0xFE00 ≤ a ∧ a ≤ 0xFE9F) :
    b.write_store a v =
      { b with ppu := { b.ppu with oam := upd b.ppu.oam (a - 0xFE00) v } } := by
  unfold DmgBus.write_store
  rw [if_neg (show ¬(a ≤ 0x7FFF ∨ (0xA000 ≤ a ∧ a ≤ 0xBFFF)) by omega),
    if_neg (show ¬(a ≤ 0x9FFF) by omega), if_neg (show ¬(a ≤ 0xDFFF) by omega),
    if_neg (show ¬(a ≤ 0xFDFF) by omega),
    if_pos (show 0xFE00 ≤ a ∧ a ≤ 0xFE9F from h)]

theorem write_store_hram (b : DmgBus) (a v : Nat) (h : 0xFF80 ≤ a ∧ a ≤ 0xFFFE) :
    b.write_store a v = { b with hram := upd b.hram (a - 0xFF80) v } := by
  unfold DmgBus.write_store
  rw [if_neg (show ¬(a ≤ 0x7FFF ∨ (0xA000 ≤ a ∧ a ≤ 0xBFFF)) by omega),
    if_neg (show ¬(a ≤ 0x9FFF) by omega), if_neg (show ¬(a ≤ 0xDFFF) by omega),
    if_neg (show ¬(a ≤ 0xFDFF) by omega),
    if_neg (show ¬(0xFE00 ≤ a ∧ a ≤ 0xFE9F) by omega),
    if_neg (show ¬(a = 0xFF01) by omega), if_neg (show ¬(a = 0xFF02) by omega),
    if_neg (show ¬(0xFF04 ≤ a ∧ a ≤ 0xFF07) by omega),
    if_neg (show ¬(a = 0xFF0F) by omega), if_neg (show ¬(a = 0xFF42) by omega),
    if_neg (show ¬(a = 0xFF50) by omega),
    if_pos (show 0xFF80 ≤ a ∧ a ≤ 0xFFFE from h)]

theorem peek_vram (s : DmgBus) (a : Nat) (h : 0x8000 ≤ a ∧ a ≤ 0x9FFF) :
    s.peek_byte a = s.ppu.vram (a - 0x8000) := by
  unfold DmgBus.peek_byte
  rw [if_neg (show ¬(s.bootrom_enabled = true ∧ a < 0x100) by rintro ⟨-, hlt⟩; omega),
    if_neg (show ¬(a ≤ 0x7FFF ∨ (0xA000 ≤ a ∧ a ≤ 0xBFFF)) by omega),
    if_pos (show a ≤ 0x9FFF by omega)]

theorem peek_wram (s : DmgBus) (a : Nat) (h : 0xC000 ≤ a ∧ a ≤ 0xDFFF) :
    s.peek_byte a = s.wram (a - 0xC000) := by
  unfold DmgBus.peek_byte
  rw [if_neg (show ¬(s.bootrom_enabled = true ∧ a < 0x100) by rintro ⟨-, hlt⟩; omega),
    if_neg (show ¬(a ≤ 0x7FFF ∨ (0xA000 ≤ a ∧ a ≤ 0xBFFF)) by omega),
    if_neg (show ¬(a ≤ 0x9FFF) by omega), if_pos (show a ≤ 0xDFFF by omega)]

theorem peek_echo (s : DmgBus) (a : Nat) (h : 0xE000 ≤ a ∧ a ≤ 0xFDFF) :
    s.peek_byte a = s.wram (a - 0xE000) := by
  unfold DmgBus.peek_byte
  rw [if_neg (show ¬(s.bootrom_enabled = true ∧ a < 0x100) by rintro ⟨-, hlt⟩; omega),
    if_neg (show ¬(a ≤ 0x7FFF ∨ (0xA000 ≤ a ∧ a ≤ 0xBFFF)) by omega),
    if_neg (show ¬(a ≤ 0x9FFF) by omega), if_neg (show ¬(a ≤ 0xDFFF) by omega),
    if_pos (show a ≤ 0xFDFF by omega)]

theorem peek_oam (s : DmgBus) (a : Nat) (h : 0xFE00 ≤ a ∧ a ≤ 0xFE9F) :
    s.peek_byte a = s.ppu.oam (a - 0xFE00) := by
  unfold DmgBus.peek_byte
  rw [if_neg (show ¬(s.bootrom_enabled = true ∧ a < 0x100) by rintro ⟨-, hlt⟩; omega),
    if_neg (show ¬(a ≤ 0x7FFF ∨ (0xA000 ≤ a ∧ a ≤ 0xBFFF)) by omega),
    if_neg (show ¬(a ≤ 0x9FFF) by omega), if_neg (show ¬(a ≤ 0xDFFF) by omega),
    if_neg (show ¬(a ≤ 0xFDFF) by omega), if_pos (show a ≤ 0xFE9F by omega)]

theorem peek_hram (s : DmgBus) (a : Nat) (h : 0xFF80 ≤ a ∧ a ≤ 0xFFFE) :
    s.peek_byte a = s.hram (a - 0xFF80) := by
  unfold DmgBus.peek_byte
  rw [if_neg (show ¬(s.bootrom_enabled = true ∧ a < 0x100) by rintro ⟨-, hlt⟩; omega),
    if_neg (show ¬(a ≤ 0x7FFF ∨ (0xA000 ≤ a ∧ a ≤ 0xBFFF)) by omega),
    if_neg (show ¬(a ≤ 0x9FFF) by omega), if_neg (show ¬(a ≤ 0xDFFF) by omega),
    if_neg (show ¬(a ≤ 0xFDFF) by omega), if_neg (show ¬(a ≤ 0xFE9F) by omega),
    if_neg (show ¬(a ≤ 0xFEFF) by omega), if_neg (show ¬(a = 0xFF01) by omega),
    if_neg (show ¬(a = 0xFF02) by omega),
    if_neg (show ¬(0xFF04 ≤ a ∧ a ≤ 0xFF07) by omega),
    if_neg (show ¬(a = 0xFF42) by omega), if_neg (show ¬(a = 0xFF44) by omega),
    if_neg (show ¬(a = 0xFF0F) by omega), if_neg (show ¬(a ≤ 0xFF7F) by omega),
    if_pos (show a ≤ 0xFFFE by omega)]

/-- C8 (amended): for every address in work RAM (0xC000–0xDFFF), its
echo (0xE000–0xFDFF), VRAM (0x8000–0x9FFF), OAM (0xFE00–0xFE9F) or
high RAM (0xFF80–0xFFFE), `write_byte(a, v)` followed by `peek_byte(a)`
returns `v`.  Cartridge RAM (0xA000–0xBFFF) is excluded: MBC1 drops
those writes (see the counterexample). -/
theorem c8_amended_ram_regions_roundtrip : ∀ (b : DmgBus) (a v : Nat),
    ((0x8000 ≤ a ∧ a ≤ 0x9FFF) ∨ (0xC000 ≤ a ∧ a ≤ 0xDFFF) ∨
     (0xE000 ≤ a ∧ a ≤ 0xFDFF) ∨ (0xFE00 ≤ a ∧ a ≤ 0xFE9F) ∨
     (0xFF80 ≤ a ∧ a ≤ 0xFFFE)) →
    (b.write_byte a v).peek_byte a = v := by
  intro b a v hreg
  rcases hreg with h | h | h | h | h
  · calc (b.write_byte a v).peek_byte a
        = ((b.write_store a v).tick).ppu.vram (a - 0x8000) := peek_vram _ a h
      _ = (b.write_store a v).ppu.vram (a - 0x8000) := by rw [DmgBus.tick_ppu]
      _ = upd b.ppu.vram (a - 0x8000) v (a - 0x8000) := by
            rw [write_store_vram b a v h]
      _ = v := upd_same _ _ _
  · calc (b.write_byte a v).peek_byte a
        = ((b.write_store a v).tick).wram (a - 0xC000) := peek_wram _ a h
      _ = (b.write_store a v).wram (a - 0xC000) := by rw [DmgBus.tick_wram]
      _ = upd b.wram (a - 0xC000) v (a - 0xC000) := by
            rw [write_store_wram b a v h]
      _ = v := upd_same _ _ _
  · calc (b.write_byte a v).peek_byte a
        = ((b.write_store a v).tick).wram (a - 0xE000) := peek_echo _ a h
      _ = (b.write_store a v).wram (a - 0xE000) := by rw [DmgBus.tick_wram]
      _ = upd b.wram (a - 0xE000) v (a - 0xE000) := by
            rw [write_store_echo b a v h]
      _ = v := upd_same _ _ _
  · calc (b.write_byte a v).peek_byte a
        = ((b.write_store a v).tick).ppu.oam (a - 0xFE00) := peek_oam _ a h
      _ = (b.write_store a v).ppu.oam (a - 0xFE00) := by rw [DmgBus.tick_ppu]
      _ = upd b.ppu.oam (a - 0xFE00) v (a - 0xFE00) := by
            rw [write_store_oam b a v h]
      _ = v := upd_same _ _ _
  · calc (b.write_byte a v).peek_byte a
        = ((b.write_store a v).tick).hram (a - 0xFF80) := peek_hram _ a h
      _ = (b.write_store a v).hram (a - 0xFF80) := by rw [DmgBus.tick_hram]
      _ = upd b.hram (a - 0xFF80) v (a - 0xFF80) := by
            rw [write_store_hram b a v h]
      _ = v := upd_same _ _ _

/-- C8 witness: the amended round-trip law at work-RAM address 0xC123
with value 7 on the default bus. -/
theorem c8_amended_ram_regions_roundtrip_witness :
    (DmgBus.default.write_byte 0xC123 7).peek_byte 0xC123 = 7 := by
  exact c8_amended_ram_regions_roundtrip DmgBus.default 0xC123 7 (by decide)

/-- C10: the word operations are asymmetric at the top of the address
space — `write_word(0xFFFF, v)` uses a wrapping add for its second
address, writing the low byte at 0xFFFF and the high byte at 0x0000,
whereas `read_word` computes its second address with the plain
(checked) add `address + 1`, which overflows at 0xFFFF (a panic,
modelled as `none`) instead of wrapping; `read_word` succeeds for every
address up to 0xFFFE. -/
theorem c10_word_ops_at_address_top : ∀ (b : DmgBus) (v a : Nat),
    b.write_word 0xFFFF v =
      (b.write_byte 0xFFFF (v % 256)).write_byte 0x0000 ((v >>> 8) % 256) ∧
    b.read_word 0xFFFF = none ∧
    (a ≤ 0xFFFE → (b.read_word a).isSome = true) := by
  intro b v a
  refine ⟨?_, ?_, ?_⟩
  · unfold DmgBus.write_word
    norm_num
  · unfold DmgBus.read_word
    norm_num
  · intro h
    unfold DmgBus.read_word
    rw [if_pos (by omega)]
    rfl

/-- C10 witness: the theorem applied at the default bus with value 0
and address 0x0100. -/
theorem c10_word_ops_at_address_top_witness :
    (DmgBus.default.read_word 0x0100).isSome = true ∧
    DmgBus.default.read_word 0xFFFF = none := by
  have h := c10_word_ops_at_address_top DmgBus.default 0 0x0100
  exact ⟨h.2.2 (by decide), h.2.1⟩

end Rgb
